import Mathlib

/-!
Verification development for the roblox-proxy repository.

The repository contains two variants of the same Express reverse proxy:
`src/server.js` and `src/unnamed/part_000`.  Both implement the pipeline
health route, shared-secret auth middleware, allow-list route resolution,
TTL cache lookup, retried upstream forwarding and response translation.
The definitions below are a shallow embedding of that pipeline, translated
from the source variant `src/unnamed/part_000` (function names `mapTarget`,
`attempt`, the `waits` retry loop); where the `src/server.js` variant
differs in behaviour (its cache-store condition and its retry loop), that
variant is embedded separately under a `Server`-suffixed name.
-/

namespace RobloxProxy

/-- One allow-list rule: `{ mount: "/catalog", target: "https://catalog.roblox.com" }`
(`part_000` lines 11-14; in `server.js` the field `target` is called `base`). -/
structure AllowRule where
  mount : String
  target : String
deriving DecidableEq, Repr

/-- The static allow list `ALLOWED` (`part_000` lines 11-14, identical content to
`ALLOWED_PREFIXES` in `server.js` lines 11-14). -/
def ALLOWED : List AllowRule :=
  [⟨"/catalog", "https://catalog.roblox.com"⟩,
   ⟨"/games", "https://games.roblox.com"⟩]

/-- The cache TTL in milliseconds: `new LRUCache({ max: 1000, ttl: 30_000 })`
(`part_000` line 22, `server.js` line 16). -/
def cacheTtlMs : Nat := 30000

/-- An upstream HTTP response as the proxy observes it: `resp.statusCode`,
the `content-type` response header (absent when the upstream sent none), and
the body text obtained from `resp.body.text()`. -/
structure UpstreamResp where
  statusCode : Nat
  contentType : Option String
  body : String
deriving DecidableEq, Repr

/-- A stored cache value `{ status, headers, body }` (`part_000` line 83). -/
structure CacheEntry where
  status : Nat
  headers : List (String × String)
  body : String
deriving DecidableEq, Repr

/-- Modelled from the spec: the Response Cache is the `lru-cache` library
instance (`new LRUCache({ max: 1000, ttl: 30_000 })`), whose code is not part
of this repository.  Per the spec it is a bounded store with a per-entry
time-to-live after which a lookup must behave as a miss regardless of recency.
We model the entries as an association list from key to (store time, entry).
Capacity-based LRU eviction is not modelled: every claim below quantifies over
cache states, and eviction only changes which states arise. -/
structure Cache where
  ttl : Nat
  entries : List (String × Nat × CacheEntry)
deriving DecidableEq, Repr

/-- Modelled from the spec: `cache.get(key)` at time `now` returns the stored
entry iff one is present and younger than the TTL; once the TTL has elapsed
the lookup behaves as a miss. -/
def Cache.get (c : Cache) (k : String) (now : Nat) : Option CacheEntry :=
  match c.entries.find? (fun p => p.1 = k) with
  | some (_, t, e) => if now < t + c.ttl then some e else none
  | none => none

/-- Modelled from the spec: `cache.set(key, entry)` at time `now` stores the
entry under the key, replacing any previous entry for that key. -/
def Cache.set (c : Cache) (k : String) (e : CacheEntry) (now : Nat) : Cache :=
  ⟨c.ttl, (k, now, e) :: c.entries.filter (fun p => ¬ p.1 = k)⟩

/-- The cache constructed at startup (`part_000` line 22): empty, TTL 30s. -/
def initialCache : Cache := ⟨cacheTtlMs, []⟩

/-- An inbound request as the handlers read it: `req.method`, `req.path`
(the path portion), `req.url` (path plus raw query string), the `accept`
request header, and the `x-proxy-key` request header. -/
structure Req where
  method : String
  path : String
  url : String
  accept : Option String
  key : Option String
deriving DecidableEq, Repr

/-- JS `s.startsWith(pre)` at the character level: `pre.data` is a literal
prefix of `s.data`.  (Defined over the character lists so that it reduces by
kernel computation; `String.startsWith` is extensionally the same test.) -/
def strStartsWith (s pre : String) : Bool :=
  pre.data.isPrefixOf s.data

/-- JS `s.slice(n)` at the character level: drop the first `n` characters. -/
def strDrop (s : String) (n : Nat) : String :=
  ⟨s.data.drop n⟩

/-- JS `s.length` at the character level. -/
def strLength (s : String) : Nat :=
  s.data.length

/-- `url.slice(url.indexOf("?"))` when `url.includes("?")`, else `""`
(`part_000` line 37, `server.js` line 43), at the character-list level:
everything from the first `?` on, the `?` included. -/
def rawQueryChars : List Char → List Char
  | [] => []
  | c :: cs => if c = '?' then c :: cs else rawQueryChars cs

/-- The raw query string extracted from `req.url`: the suffix starting at the
first `?`, or empty when the url contains no `?`. -/
def rawQuery (url : String) : String := ⟨rawQueryChars url.data⟩

/-- `mapTarget` (`part_000` lines 33-39; structurally identical to
`resolveTarget`, `server.js` lines 39-45): find the first allow rule whose
mount is a literal prefix of the path, and return its target base, plus the
path with the mount removed, plus the raw query string; `none` when no rule
matches. -/
def mapTarget (rules : List AllowRule) (path url : String) : Option String :=
  match rules.find? (fun a => strStartsWith path a.mount) with
  | none => none
  | some m => some (m.target ++ strDrop path (strLength m.mount) ++ rawQuery url)

/-- The auth middleware decision (`part_000` lines 26-31, `server.js` lines
31-36): the health path always passes; otherwise the request passes iff the
`x-proxy-key` header (absent modelled as `none`) equals the configured secret,
compared as opaque strings (`key !== PROXY_KEY`). -/
def authCheck (secret : String) (path : String) (key : Option String) : Bool :=
  path = "/healthz" || key = some secret

/-- The outbound call handed to `urequest` (`part_000` lines 61-68;
`server.js` lines 68-78 is identical apart from the user-agent version
`roblox-proxy/1.0`): the target url, the inbound method, exactly two request
headers — the caller's `accept` header or `*/*`, and a fixed identifying
user-agent — and at most 2 redirects. -/
structure OutboundCall where
  target : String
  method : String
  headers : List (String × String)
  maxRedirections : Nat
deriving DecidableEq, Repr

/-- Builds the outbound call for a request and resolved target
(`part_000` lines 61-68). -/
def outboundCall (req : Req) (target : String) : OutboundCall :=
  ⟨target, req.method,
   [("accept", req.accept.getD "*/*"),
    ("user-agent", "roblox-proxy/1.2")], 2⟩

/-- The response written to the client: status, headers set via
`res.setHeader`, and body. -/
structure Response where
  status : Nat
  headers : List (String × String)
  body : String
deriving DecidableEq, Repr

/-- The normalized response headers built after a successful upstream call
(`part_000` lines 75-80, `server.js` lines 83-88): upstream content-type with
a JSON default, permissive CORS, and a cache-control mirroring the 30s cache. -/
def respHeaders (ct : Option String) : List (String × String) :=
  [("content-type", ct.getD "application/json; charset=utf-8"),
   ("access-control-allow-origin", "*"),
   ("access-control-allow-headers", "*"),
   ("cache-control", "public, max-age=30")]

/-- One body of `attempt` (`part_000` lines 56-94) after the outbound call
resolved: `outcome = none` models any thrown failure (timeout, network error,
or an exception while reading the body), in which case nothing is written and
no cache mutation happens; on `some resp` the normalized headers are built,
the entry is cached when the status is in [200,300) and the method is `GET`,
and the upstream status and body are written verbatim. -/
def attemptStep (method cacheKey : String) (cache : Cache) (now : Nat)
    (outcome : Option UpstreamResp) : Option (Response × Cache) :=
  match outcome with
  | none => none
  | some resp =>
    let headers := respHeaders resp.contentType
    let cache2 :=
      if 200 ≤ resp.statusCode ∧ resp.statusCode < 300 ∧ method = "GET" then
        cache.set cacheKey ⟨resp.statusCode, headers, resp.body⟩ now
      else cache
    some (⟨resp.statusCode, headers, resp.body⟩, cache2)

/-- One body of `forward` in the `server.js` variant (lines 64-101): same as
`attemptStep` except the cache-store condition is
`req.method === "GET" && resp.status === 200` (`server.js` line 90) — exactly
status 200, not the whole 2xx range. -/
def forwardStepServer (method cacheKey : String) (cache : Cache) (now : Nat)
    (outcome : Option UpstreamResp) : Option (Response × Cache) :=
  match outcome with
  | none => none
  | some resp =>
    let headers := respHeaders resp.contentType
    let cache2 :=
      if method = "GET" ∧ resp.statusCode = 200 then
        cache.set cacheKey ⟨resp.statusCode, headers, resp.body⟩ now
      else cache
    some (⟨resp.statusCode, headers, resp.body⟩, cache2)

/-- The base backoff delays of the retry loop (`part_000` line 96). -/
def baseDelays : List Nat := [0, 200, 400]

/-- `[0, 200, 400].map(ms => ms + Math.floor(Math.random() * 150))`
(`part_000` line 96): each of the three waits is its base delay plus an
independent jitter draw; the draws are passed in as the list `js`, each
element in [0,150). -/
def waits (js : List Nat) : List Nat :=
  List.zipWith (fun ms j => ms + j) baseDelays js

/-- The outcome of running the handler (or the retry loop): the response
written, the cache afterwards, the sleeps actually performed (in ms, in
order), and the outbound upstream calls actually made (in order). -/
structure HandleResult where
  response : Response
  cache : Cache
  sleeps : List Nat
  calls : List OutboundCall
deriving DecidableEq, Repr

/-- The retry loop (`part_000` lines 96-101): for each wait in `ws`, sleep it
when nonzero, then try one attempt — whose outcome is the matching element of
`outcomes` (`none` = that attempt threw) — returning the first successful
attempt's result immediately; when the loop is exhausted, respond 502
`"Upstream error"` with the cache untouched. -/
def runLoop (req : Req) (target cacheKey : String) (cache : Cache) (now : Nat) :
    List Nat → List (Option UpstreamResp) → HandleResult
  | [], _ => ⟨⟨502, [], "Upstream error"⟩, cache, [], []⟩
  | w :: ws, os =>
    let slept := if w = 0 then ([] : List Nat) else [w]
    let call := outboundCall req target
    match attemptStep req.method cacheKey cache now (os.headD none) with
    | some rc => ⟨rc.1, rc.2, slept, [call]⟩
    | none =>
      let rest := runLoop req target cacheKey cache now ws os.tail
      ⟨rest.response, rest.cache, slept ++ rest.sleeps, call :: rest.calls⟩

/-- Express 4 semantics of the route patterns `["/catalog/*", "/games/*"]`
(`part_000` line 41, `server.js` line 48): a pattern `/m/*` matches exactly
the paths that begin with `/m/` (the wildcard may match the empty string, but
the slash after the mount is required, so the bare mount path does not match). -/
def routeMatches (path : String) : Bool :=
  strStartsWith path "/catalog/" || strStartsWith path "/games/"

/-- The full per-request pipeline in source order (`part_000` lines 24-104):
the `GET /healthz` route (Express also serves `HEAD` through a `GET` route),
the auth middleware, the proxy route (method check, target resolution, cache
lookup for `GET`, then the retry loop), and the fallback 404 handler.
`now` is the clock reading, `js` the jitter draws, `outcomes` the per-attempt
upstream outcomes. -/
def handle (secret : String) (req : Req) (cache : Cache) (now : Nat)
    (js : List Nat) (outcomes : List (Option UpstreamResp)) : HandleResult :=
  if (req.method = "GET" ∨ req.method = "HEAD") ∧ req.path = "/healthz" then
    ⟨⟨200, [], "ok"⟩, cache, [], []⟩
  else if ¬ authCheck secret req.path req.key then
    ⟨⟨403, [], "Forbidden"⟩, cache, [], []⟩
  else if routeMatches req.path then
    if ¬ (req.method = "GET" ∨ req.method = "HEAD") then
      ⟨⟨405, [], "Method Not Allowed"⟩, cache, [], []⟩
    else
      match mapTarget ALLOWED req.path req.url with
      | none => ⟨⟨404, [], "Not allowed"⟩, cache, [], []⟩
      | some target =>
        let cacheKey := req.method ++ ":" ++ target
        match (if req.method = "GET" then cache.get cacheKey now else none) with
        | some e => ⟨⟨e.status, e.headers, e.body⟩, cache, [], []⟩
        | none => runLoop req target cacheKey cache now (waits js) outcomes
  else ⟨⟨404, [], "Not found"⟩, cache, [], []⟩

/-! ### Helper lemmas -/

theorem mapTarget_cons_of_no_match (r : AllowRule) (rules : List AllowRule)
    (path url : String) (h : strStartsWith path r.mount = false) :
    mapTarget (r :: rules) path url = mapTarget rules path url := by
  unfold mapTarget
  rw [List.find?_cons_of_neg]
  simp [h]

theorem mapTarget_cons_of_match (r : AllowRule) (rules : List AllowRule)
    (path url : String) (h : strStartsWith path r.mount = true) :
    mapTarget (r :: rules) path url
      = some (r.target ++ strDrop path (strLength r.mount) ++ rawQuery url) := by
  unfold mapTarget
  rw [List.find?_cons_of_pos]
  exact h

theorem mapTarget_nil (path url : String) : mapTarget [] path url = none := rfl

theorem mapTarget_none_of_no_match (rules : List AllowRule) (path url : String)
    (h : ∀ r ∈ rules, strStartsWith path r.mount = false) :
    mapTarget rules path url = none := by
  induction rules with
  | nil => rfl
  | cons r rs ih =>
    rw [mapTarget_cons_of_no_match r rs path url (h r (List.mem_cons_self r rs))]
    exact ih (fun x hx => h x (List.mem_cons_of_mem r hx))

theorem rawQueryChars_of_split (p q : List Char) (hp : '?' ∉ p) :
    rawQueryChars (p ++ '?' :: q) = '?' :: q := by
  induction p with
  | nil => simp [rawQueryChars]
  | cons c cs ih =>
    have hc : ¬ c = '?' := fun h => hp (by simp [h])
    have hcs : '?' ∉ cs := fun h => hp (List.mem_cons_of_mem c h)
    simp [rawQueryChars, hc, ih hcs]

theorem rawQueryChars_of_no_qmark (p : List Char) (hp : '?' ∉ p) :
    rawQueryChars p = [] := by
  induction p with
  | nil => rfl
  | cons c cs ih =>
    have hc : ¬ c = '?' := fun h => hp (by simp [h])
    have hcs : '?' ∉ cs := fun h => hp (List.mem_cons_of_mem c h)
    simp [rawQueryChars, hc, ih hcs]

theorem rawQuery_of_split (p q : String) (hp : '?' ∉ p.data) :
    rawQuery (p ++ "?" ++ q) = "?" ++ q := by
  have hd : (p ++ "?" ++ q).data = p.data ++ '?' :: q.data := by
    simp [String.data_append]
  have h2 : rawQueryChars (p ++ "?" ++ q).data = '?' :: q.data := by
    rw [hd]; exact rawQueryChars_of_split p.data q.data hp
  unfold rawQuery
  rw [h2]
  cases q
  rfl

theorem rawQuery_of_no_qmark (p : String) (hp : '?' ∉ p.data) :
    rawQuery p = "" := by
  unfold rawQuery
  rw [rawQueryChars_of_no_qmark p.data hp]

theorem runLoop_all_fail (req : Req) (target cacheKey : String) (cache : Cache)
    (now : Nat) (ws : List Nat) (os : List (Option UpstreamResp))
    (h : ∀ o ∈ os, o = none) :
    runLoop req target cacheKey cache now ws os
      = ⟨⟨502, [], "Upstream error"⟩, cache,
         ws.filter (fun w => w ≠ 0),
         ws.map (fun _ => outboundCall req target)⟩ := by
  induction ws generalizing os with
  | nil => rfl
  | cons w ws ih =>
    have hhead : os.head?.getD none = none := by
      cases os with
      | nil => rfl
      | cons o os2 => exact h o (List.mem_cons_self o os2)
    have htail : ∀ o ∈ os.tail, o = none := by
      cases os with
      | nil => simp
      | cons o os2 => exact fun x hx => h x (List.mem_cons_of_mem o hx)
    simp [runLoop, hhead, attemptStep, ih os.tail htail, List.filter_cons]
    by_cases hw : w = 0 <;> simp [hw]

/-! ### Claim theorems -/

/-- Claim C5: route resolution scans the allow list in declaration order and
selects the first rule whose mount is a literal prefix of the path; the
resolved target is the rule's upstream base, plus the path with the matched
mount removed, plus the raw query string (its leading `?` kept, the bytes
passed through unparsed and unmodified); when no rule matches, resolution
returns `none`. -/
theorem mapTarget_resolution (pre post : List AllowRule) (m : AllowRule)
    (path url p q : String)
    (hpre : ∀ r ∈ pre, strStartsWith path r.mount = false)
    (hm : strStartsWith path m.mount = true) :
    mapTarget (pre ++ m :: post) path url
      = some (m.target ++ strDrop path (strLength m.mount) ++ rawQuery url) ∧
    (∀ rules : List AllowRule,
      (∀ r ∈ rules, strStartsWith path r.mount = false) →
      mapTarget rules path url = none) ∧
    ('?' ∉ p.data → rawQuery (p ++ "?" ++ q) = "?" ++ q) ∧
    ('?' ∉ p.data → rawQuery p = "") := by
  refine ⟨?_, fun rules h => mapTarget_none_of_no_match rules path url h,
    fun hp => rawQuery_of_split p q hp, fun hp => rawQuery_of_no_qmark p hp⟩
  induction pre with
  | nil => exact mapTarget_cons_of_match m post path url hm
  | cons r rs ih =>
    rw [List.cons_append,
      mapTarget_cons_of_no_match r (rs ++ m :: post) path url
        (hpre r (List.mem_cons_self r rs))]
    exact ih (fun x hx => hpre x (List.mem_cons_of_mem r hx))

/-- Witness for C5: on `GET /games/list?sort=name&limit=10` the second rule is
the first match and the query string is appended byte-for-byte. -/
theorem mapTarget_resolution_witness :
    mapTarget ALLOWED "/games/list" "/games/list?sort=name&limit=10"
      = some ("https://games.roblox.com"
          ++ strDrop "/games/list" (strLength "/games")
          ++ rawQuery "/games/list?sort=name&limit=10") ∧
    rawQuery ("/games/list" ++ "?" ++ "sort=name&limit=10")
      = "?" ++ "sort=name&limit=10" :=
  have h := mapTarget_resolution [⟨"/catalog", "https://catalog.roblox.com"⟩] []
    ⟨"/games", "https://games.roblox.com"⟩ "/games/list"
    "/games/list?sort=name&limit=10" "/games/list" "sort=name&limit=10"
    (by decide) (by decide)
  ⟨h.1, h.2.2.1 (by decide)⟩

/-- Claim C6: resolution preserves behaviour for both a present and an absent
trailing segment — the bare mount path `/catalog` maps to the upstream base
with an empty remainder, and `/catalog/v1/x` maps to the base plus `/v1/x`. -/
theorem mapTarget_trailing_segment :
    strDrop "/catalog" (strLength "/catalog") = "" ∧
    mapTarget ALLOWED "/catalog" "/catalog" = some "https://catalog.roblox.com" ∧
    strDrop "/catalog/v1/x" (strLength "/catalog") = "/v1/x" ∧
    mapTarget ALLOWED "/catalog/v1/x" "/catalog/v1/x"
      = some "https://catalog.roblox.com/v1/x" := by
  decide

/-- Claim C8: away from the health path, the guard allows iff the
`x-proxy-key` header equals the configured secret as an opaque string; on
mismatch or absence the pipeline responds 403 `"Forbidden"` with no further
processing (cache untouched, no sleeps, no upstream calls); the health path
always passes the guard without a secret check. -/
theorem auth_guard (secret path : String) (key : Option String) (req : Req)
    (cache : Cache) (now : Nat) (js : List Nat)
    (outcomes : List (Option UpstreamResp)) :
    (path ≠ "/healthz" → (authCheck secret path key = true ↔ key = some secret)) ∧
    authCheck secret "/healthz" key = true ∧
    (req.path ≠ "/healthz" → req.key ≠ some secret →
      handle secret req cache now js outcomes
        = ⟨⟨403, [], "Forbidden"⟩, cache, [], []⟩) := by
  refine ⟨?_, ?_, ?_⟩
  · intro h
    simp [authCheck, h]
  · simp [authCheck]
  · intro hpath hkey
    simp [handle, authCheck, hpath, hkey]

/-- Witness for C8: a request with no `x-proxy-key` header to a non-health
path is answered 403 `"Forbidden"` and nothing else happens. -/
theorem auth_guard_witness :
    handle "sekret" ⟨"GET", "/catalog/v1/x", "/catalog/v1/x", none, none⟩
        initialCache 0 [0, 0, 0] [none, none, none]
      = ⟨⟨403, [], "Forbidden"⟩, initialCache, [], []⟩ :=
  (auth_guard "sekret" "/catalog/v1/x" none
    ⟨"GET", "/catalog/v1/x", "/catalog/v1/x", none, none⟩
    initialCache 0 [0, 0, 0] [none, none, none]).2.2 (by decide) (by decide)

/-- Claim C7 counterexample: a GET for the unconfigured path `/foo` carrying
no `x-proxy-key` header is answered 403 `"Forbidden"` by the auth middleware,
which runs before the fallback handler — not 404 `"Not found"` as the claim
states for every request on an unmatched path. -/
theorem unauth_unmatched_path_gets_403 :
    (handle "change-me" ⟨"GET", "/foo", "/foo", none, none⟩
        initialCache 0 [0, 0, 0] [none, none, none]).response
      = ⟨403, [], "Forbidden"⟩ ∧
    (handle "change-me" ⟨"GET", "/foo", "/foo", none, none⟩
        initialCache 0 [0, 0, 0] [none, none, none]).response.status ≠ 404 := by
  decide

/-- Claim C7 (amended): for every request that passes the auth middleware
(its `x-proxy-key` equals the secret, or its path is the health path with a
non-health-route method) and whose path matches no configured mount route,
the response is 404 `"Not found"`; a request failing the auth check is
answered 403 `"Forbidden"` instead, whatever its path. -/
theorem unmatched_path_404 (secret : String) (req : Req) (cache : Cache)
    (now : Nat) (js : List Nat) (outcomes : List (Option UpstreamResp))
    (hauth : authCheck secret req.path req.key = true)
    (hhz : ¬ ((req.method = "GET" ∨ req.method = "HEAD") ∧ req.path = "/healthz"))
    (hroute : routeMatches req.path = false) :
    handle secret req cache now js outcomes
      = ⟨⟨404, [], "Not found"⟩, cache, [], []⟩ := by
  simp [handle, hauth, hroute, hhz]

/-- Witness for C7 (amended): an authorized POST to the unconfigured path
`/foo` is answered 404 `"Not found"`. -/
theorem unmatched_path_404_witness :
    handle "sekret" ⟨"POST", "/foo", "/foo", none, some "sekret"⟩
        initialCache 0 [0, 0, 0] [none, none, none]
      = ⟨⟨404, [], "Not found"⟩, initialCache, [], []⟩ :=
  unmatched_path_404 "sekret" ⟨"POST", "/foo", "/foo", none, some "sekret"⟩
    initialCache 0 [0, 0, 0] [none, none, none] (by decide) (by decide) (by decide)

/-- Claim C2: when a request reaches the forwarding loop and every upstream
attempt fails, the client receives 502 with body `"Upstream error"` and the
cache afterwards is exactly the cache before — no entry is created or
modified for the request's key (or any other). -/
theorem upstream_total_failure_502 (secret : String) (req : Req) (cache : Cache)
    (now : Nat) (js : List Nat) (outcomes : List (Option UpstreamResp))
    (target : String)
    (hfail : ∀ o ∈ outcomes, o = none)
    (hhz : req.path ≠ "/healthz")
    (hauth : authCheck secret req.path req.key = true)
    (hroute : routeMatches req.path = true)
    (hmethod : req.method = "GET" ∨ req.method = "HEAD")
    (htarget : mapTarget ALLOWED req.path req.url = some target)
    (hmiss : (if req.method = "GET"
        then cache.get (req.method ++ ":" ++ target) now else none) = none) :
    handle secret req cache now js outcomes
      = ⟨⟨502, [], "Upstream error"⟩, cache,
         (waits js).filter (fun w => w ≠ 0),
         (waits js).map (fun _ => outboundCall req target)⟩ := by
  rcases hmethod with hm | hm
  · have hmiss2 : cache.get ("GET:" ++ target) now = none := by
      simpa [hm] using hmiss
    have hstep : handle secret req cache now js outcomes
        = runLoop req target ("GET" ++ ":" ++ target) cache now (waits js) outcomes := by
      simp [handle, hhz, hauth, hroute, hm, htarget, hmiss2]
    rw [hstep, ← hm]
    exact runLoop_all_fail req target (req.method ++ ":" ++ target)
      cache now (waits js) outcomes hfail
  · have hstep : handle secret req cache now js outcomes
        = runLoop req target ("HEAD" ++ ":" ++ target) cache now (waits js) outcomes := by
      simp [handle, hhz, hauth, hroute, hm, htarget]
    rw [hstep, ← hm]
    exact runLoop_all_fail req target (req.method ++ ":" ++ target)
      cache now (waits js) outcomes hfail

/-- Witness for C2: three failing attempts on an authorized cold-cache GET
yield 502 `"Upstream error"` and leave the (empty) cache unchanged. -/
theorem upstream_total_failure_502_witness :
    handle "s" ⟨"GET", "/catalog/v1/x", "/catalog/v1/x?y=1", none, some "s"⟩
        initialCache 0 [10, 20, 30] [none, none, none]
      = ⟨⟨502, [], "Upstream error"⟩, initialCache,
         (waits [10, 20, 30]).filter (fun w => w ≠ 0),
         (waits [10, 20, 30]).map (fun _ =>
           outboundCall ⟨"GET", "/catalog/v1/x", "/catalog/v1/x?y=1", none, some "s"⟩
             "https://catalog.roblox.com/v1/x?y=1")⟩ :=
  upstream_total_failure_502 "s"
    ⟨"GET", "/catalog/v1/x", "/catalog/v1/x?y=1", none, some "s"⟩
    initialCache 0 [10, 20, 30] [none, none, none]
    "https://catalog.roblox.com/v1/x?y=1"
    (by decide) (by decide) (by decide) (by decide) (Or.inl rfl) (by decide) (by decide)

/-- Claim C3 counterexample: in the `server.js` variant a completed `GET`
attempt whose upstream status is 204 — a status in [200,300) — creates no
cache entry: the store condition there is `resp.status === 200` exactly, so
the cache comes back unchanged (still empty) although the claim requires an
entry to be written. -/
theorem server_forward_skips_204 :
    forwardStepServer "GET" "k" initialCache 0 (some ⟨204, none, "b"⟩)
      = some (⟨204, respHeaders none, "b"⟩, initialCache) ∧
    (200 ≤ 204 ∧ 204 < 300) ∧
    Cache.get initialCache "k" 0 = none := by
  decide

/-- Claim C3 (amended): in the `part_000` variant a completed attempt writes
a cache entry for the key iff the method is `GET` and the status is in
[200,300); in the `server.js` variant it writes iff the method is `GET` and
the status is exactly 200; in both, no entry is ever created for `HEAD` or
for a non-2xx status — the cache is returned unchanged — and a written entry
is immediately readable back under the key. -/
theorem cache_write_condition (method cacheKey : String) (cache : Cache)
    (now : Nat) (resp : UpstreamResp) :
    (200 ≤ resp.statusCode ∧ resp.statusCode < 300 ∧ method = "GET" →
      attemptStep method cacheKey cache now (some resp)
        = some (⟨resp.statusCode, respHeaders resp.contentType, resp.body⟩,
            cache.set cacheKey
              ⟨resp.statusCode, respHeaders resp.contentType, resp.body⟩ now)) ∧
    (¬ (200 ≤ resp.statusCode ∧ resp.statusCode < 300 ∧ method = "GET") →
      attemptStep method cacheKey cache now (some resp)
        = some (⟨resp.statusCode, respHeaders resp.contentType, resp.body⟩, cache)) ∧
    (method = "GET" ∧ resp.statusCode = 200 →
      forwardStepServer method cacheKey cache now (some resp)
        = some (⟨resp.statusCode, respHeaders resp.contentType, resp.body⟩,
            cache.set cacheKey
              ⟨resp.statusCode, respHeaders resp.contentType, resp.body⟩ now)) ∧
    (¬ (method = "GET" ∧ resp.statusCode = 200) →
      forwardStepServer method cacheKey cache now (some resp)
        = some (⟨resp.statusCode, respHeaders resp.contentType, resp.body⟩, cache)) ∧
    (∀ e : CacheEntry, 0 < cache.ttl →
      (cache.set cacheKey e now).get cacheKey now = some e) := by
  refine ⟨?_, ?_, ?_, ?_, ?_⟩
  · intro h; simp [attemptStep, h]
  · intro h; simp [attemptStep, h]
  · intro h; simp [forwardStepServer, h]
  · intro h; simp [forwardStepServer, h]
  · intro e h
    simp [Cache.set, Cache.get, List.find?]
    omega

/-- Witness for C3 (amended): a `GET` attempt with status 204 in the
`part_000` variant stores the entry. -/
theorem cache_write_condition_witness :
    attemptStep "GET" "k" initialCache 0 (some ⟨204, none, "b"⟩)
      = some (⟨204, respHeaders none, "b"⟩,
          Cache.set initialCache "k" ⟨204, respHeaders none, "b"⟩ 0) :=
  (cache_write_condition "GET" "k" initialCache 0 ⟨204, none, "b"⟩).1 (by decide)

/-- Claim C1 counterexample: `[0, 200, 400].map(ms => ms + jitter)` adds the
jitter to all three base delays, the one before attempt 1 included.  With the
jitter draws 100, 0, 0 — each in [0,150) — the computed wait before the first
attempt is 100, not 0, and the loop (here with a first attempt that succeeds)
actually sleeps those 100 ms before making its only attempt. -/
theorem retry_sleeps_before_first_attempt :
    (100 < 150 ∧ waits [100, 0, 0] = [100, 200, 400]) ∧
    (runLoop ⟨"GET", "/catalog/x", "/catalog/x", none, some "s"⟩ "t" "GET:t"
        initialCache 0 (waits [100, 0, 0])
        [some ⟨200, none, "b"⟩, none, none]).sleeps = [100] := by
  decide

/-- Claim C1 (amended): the forwarding loop of `part_000` makes up to 3 total
attempts; the wait before attempt i is the base delay (0, 200, 400 ms) plus
an independent uniformly random jitter in [0, 150) applied to all three waits
— so attempt 1 is preceded by a jitter-only sleep, skipped only when the
computed wait is exactly 0; the first successful attempt's result is returned
immediately and no further attempts (or sleeps) are made. -/
theorem retry_loop_behavior (j0 j1 j2 : Nat)
    (h0 : j0 < 150) (h1 : j1 < 150) (h2 : j2 < 150)
    (req : Req) (target cacheKey : String) (cache : Cache) (now : Nat)
    (o1 o2 o3 : Option UpstreamResp) (rc : Response × Cache) :
    waits [j0, j1, j2] = [j0, 200 + j1, 400 + j2] ∧
    (j0 < 150 ∧ 200 ≤ 200 + j1 ∧ 200 + j1 < 350 ∧ 400 ≤ 400 + j2 ∧ 400 + j2 < 550) ∧
    (attemptStep req.method cacheKey cache now o1 = some rc →
      runLoop req target cacheKey cache now (waits [j0, j1, j2]) [o1, o2, o3]
        = ⟨rc.1, rc.2, if j0 = 0 then [] else [j0], [outboundCall req target]⟩) ∧
    (o1 = none → attemptStep req.method cacheKey cache now o2 = some rc →
      runLoop req target cacheKey cache now (waits [j0, j1, j2]) [o1, o2, o3]
        = ⟨rc.1, rc.2, (if j0 = 0 then [] else [j0]) ++ [200 + j1],
           [outboundCall req target, outboundCall req target]⟩) ∧
    (o1 = none → o2 = none → attemptStep req.method cacheKey cache now o3 = some rc →
      runLoop req target cacheKey cache now (waits [j0, j1, j2]) [o1, o2, o3]
        = ⟨rc.1, rc.2, (if j0 = 0 then [] else [j0]) ++ [200 + j1, 400 + j2],
           [outboundCall req target, outboundCall req target, outboundCall req target]⟩) := by
  have hnone : attemptStep req.method cacheKey cache now none = none := rfl
  refine ⟨by simp [waits, baseDelays], by omega, ?_, ?_, ?_⟩
  · intro hstep
    simp [runLoop, waits, baseDelays, hstep]
  · intro ho1 hstep
    subst ho1
    simp [runLoop, waits, baseDelays, hnone, hstep]
  · intro ho1 ho2 hstep
    subst ho1; subst ho2
    simp [runLoop, waits, baseDelays, hnone, hstep]

/-- Witness for C1 (amended): jitter draws 5, 0, 0; the first attempt fails,
the second succeeds — the loop slept 5 ms then 200 ms, made exactly two
upstream calls, and returned the second attempt's result. -/
theorem retry_loop_behavior_witness :
    runLoop ⟨"GET", "/catalog/x", "/catalog/x", none, some "s"⟩ "t" "GET:t"
        initialCache 0 (waits [5, 0, 0]) [none, some ⟨200, none, "b"⟩, none]
      = ⟨⟨200, respHeaders none, "b"⟩,
         Cache.set initialCache "GET:t" ⟨200, respHeaders none, "b"⟩ 0,
         (if (5 : Nat) = 0 then [] else [5]) ++ [200 + 0],
         [outboundCall ⟨"GET", "/catalog/x", "/catalog/x", none, some "s"⟩ "t",
          outboundCall ⟨"GET", "/catalog/x", "/catalog/x", none, some "s"⟩ "t"]⟩ :=
  (retry_loop_behavior 5 0 0 (by decide) (by decide) (by decide)
    ⟨"GET", "/catalog/x", "/catalog/x", none, some "s"⟩ "t" "GET:t" initialCache 0
    none (some ⟨200, none, "b"⟩) none
    (⟨200, respHeaders none, "b"⟩,
      Cache.set initialCache "GET:t" ⟨200, respHeaders none, "b"⟩ 0)).2.2.2.1
    rfl (by decide)

/-- Claim C4: a `GET` whose cache key holds an entry that the lookup returns
(i.e. one younger than the TTL) is answered with the cached status, headers
and body, with zero upstream calls and the cache left as it was; and any
lookup of a key all of whose stored entries are older than the TTL returns
`none` — it behaves as a miss regardless of where the entry sits in the
store. -/
theorem cache_hit_and_ttl_expiry (secret : String) (req : Req) (cache : Cache)
    (now : Nat) (js : List Nat) (outcomes : List (Option UpstreamResp))
    (target : String) (e : CacheEntry)
    (hmethod : req.method = "GET")
    (hhz : req.path ≠ "/healthz")
    (hauth : authCheck secret req.path req.key = true)
    (hroute : routeMatches req.path = true)
    (htarget : mapTarget ALLOWED req.path req.url = some target)
    (hhit : cache.get ("GET:" ++ target) now = some e) :
    handle secret req cache now js outcomes
      = ⟨⟨e.status, e.headers, e.body⟩, cache, [], []⟩ ∧
    (∀ (c : Cache) (k : String) (m : Nat),
      (∀ p ∈ c.entries, p.1 = k → p.2.1 + c.ttl ≤ m) →
      c.get k m = none) := by
  constructor
  · simp [handle, hhz, hauth, hroute, hmethod, htarget, hhit]
  · intro c k m hstale
    unfold Cache.get
    cases hf : c.entries.find? (fun p => p.1 = k) with
    | none => rfl
    | some p =>
      obtain ⟨k2, t, e2⟩ := p
      have hmem := List.mem_of_find?_eq_some hf
      have hpred := List.find?_some hf
      have hk : k2 = k := by simpa using hpred
      have hle : t + c.ttl ≤ m := hstale (k2, t, e2) hmem (by simpa using hpred)
      simp only []
      rw [if_neg]
      omega

/-- Witness for C4: a fresh entry stored at time 0 is served at time 5 with
no upstream call, and the same entry is a miss at time 30000 (the TTL). -/
theorem cache_hit_and_ttl_expiry_witness :
    handle "s" ⟨"GET", "/catalog/v1/x", "/catalog/v1/x", none, some "s"⟩
        ⟨30000, [("GET:https://catalog.roblox.com/v1/x", 0, ⟨200, [("h", "v")], "b"⟩)]⟩
        5 [0, 0, 0] [none, none, none]
      = ⟨⟨200, [("h", "v")], "b"⟩,
         ⟨30000, [("GET:https://catalog.roblox.com/v1/x", 0, ⟨200, [("h", "v")], "b"⟩)]⟩,
         [], []⟩ ∧
    Cache.get ⟨30000, [("GET:https://catalog.roblox.com/v1/x", 0, ⟨200, [("h", "v")], "b"⟩)]⟩
        "GET:https://catalog.roblox.com/v1/x" 30000 = none :=
  have h := cache_hit_and_ttl_expiry "s"
    ⟨"GET", "/catalog/v1/x", "/catalog/v1/x", none, some "s"⟩
    ⟨30000, [("GET:https://catalog.roblox.com/v1/x", 0, ⟨200, [("h", "v")], "b"⟩)]⟩
    5 [0, 0, 0] [none, none, none] "https://catalog.roblox.com/v1/x"
    ⟨200, [("h", "v")], "b"⟩
    rfl (by decide) (by decide) (by decide) (by decide) (by decide)
  ⟨h.1, h.2 ⟨30000, [("GET:https://catalog.roblox.com/v1/x", 0, ⟨200, [("h", "v")], "b"⟩)]⟩
    "GET:https://catalog.roblox.com/v1/x" 30000 (by decide)⟩

/-- Claim C9: every successful upstream attempt is written back with a
`content-type` equal to the upstream value when present and a default JSON
content type otherwise, the permissive CORS headers
`access-control-allow-origin: *` and `access-control-allow-headers: *`, and a
`cache-control` whose max-age in seconds equals the cache TTL (30000 ms /
1000 = 30 s); the upstream status code and body are written verbatim. -/
theorem response_translation (method cacheKey : String) (cache : Cache)
    (now : Nat) (resp : UpstreamResp) (r : Response) (c2 : Cache)
    (h : attemptStep method cacheKey cache now (some resp) = some (r, c2)) :
    r.status = resp.statusCode ∧
    r.body = resp.body ∧
    r.headers = respHeaders resp.contentType ∧
    r.headers.lookup "content-type"
      = some (resp.contentType.getD "application/json; charset=utf-8") ∧
    r.headers.lookup "access-control-allow-origin" = some "*" ∧
    r.headers.lookup "access-control-allow-headers" = some "*" ∧
    r.headers.lookup "cache-control"
      = some ("public, max-age=" ++ toString (cacheTtlMs / 1000)) ∧
    initialCache.ttl = cacheTtlMs := by
  have hr : r = ⟨resp.statusCode, respHeaders resp.contentType, resp.body⟩ := by
    simp [attemptStep] at h
    exact h.1.symm
  subst hr
  refine ⟨rfl, rfl, rfl, ?_, ?_, ?_, ?_, rfl⟩
  · simp [respHeaders, List.lookup]
  · simp [respHeaders, List.lookup]
  · simp [respHeaders, List.lookup]
  · simp [respHeaders, List.lookup]
    decide

/-- Witness for C9: a successful `HEAD` attempt returning 200 with upstream
content-type `text/plain` yields those exact normalized headers. -/
theorem response_translation_witness :
    ((⟨200, respHeaders (some "text/plain"), "b"⟩ : Response).headers.lookup
        "cache-control" = some ("public, max-age=" ++ toString (cacheTtlMs / 1000))) ∧
    ((⟨200, respHeaders (some "text/plain"), "b"⟩ : Response).headers.lookup
        "content-type" = some ((some "text/plain").getD "application/json; charset=utf-8")) ∧
    (⟨200, respHeaders (some "text/plain"), "b"⟩ : Response).status = 200 :=
  have h := response_translation "HEAD" "k" initialCache 0
    ⟨200, some "text/plain", "b"⟩ ⟨200, respHeaders (some "text/plain"), "b"⟩
    initialCache (by decide)
  ⟨h.2.2.2.2.2.2.1, h.2.2.2.1, h.1⟩

/-- Claim C10: the outbound upstream call carries exactly two request headers
— the caller's `accept` header, defaulted to `*/*` when absent, and the fixed
identifying user-agent — so no other inbound header, in particular
`x-proxy-key`, is ever forwarded; and two authorized requests differing only
in their `x-proxy-key` value produce identical upstream calls, end to end
through the handler. -/
theorem outbound_headers_noninterference (r1 r2 : Req) (target : String)
    (hm : r1.method = r2.method) (ha : r1.accept = r2.accept) :
    (outboundCall r1 target).headers
      = [("accept", r1.accept.getD "*/*"), ("user-agent", "roblox-proxy/1.2")] ∧
    (∀ p ∈ (outboundCall r1 target).headers, p.1 ≠ "x-proxy-key") ∧
    outboundCall r1 target = outboundCall r2 target ∧
    (∀ (secret m path url : String) (a k1 k2 : Option String) (cache : Cache)
        (now : Nat) (js : List Nat) (os : List (Option UpstreamResp)),
      authCheck secret path k1 = true → authCheck secret path k2 = true →
      (handle secret ⟨m, path, url, a, k1⟩ cache now js os).calls
        = (handle secret ⟨m, path, url, a, k2⟩ cache now js os).calls) := by
  refine ⟨rfl, ?_, ?_, ?_⟩
  · intro p hp
    simp [outboundCall] at hp
    rcases hp with h | h <;> simp [h]
  · simp [outboundCall, hm, ha]
  · intro secret m path url a k1 k2 cache now js os h1 h2
    have hloop : ∀ (t ck : String) (c : Cache) (n : Nat) (ws : List Nat)
        (os2 : List (Option UpstreamResp)),
        runLoop ⟨m, path, url, a, k1⟩ t ck c n ws os2
          = runLoop ⟨m, path, url, a, k2⟩ t ck c n ws os2 := by
      intro t ck c n ws
      induction ws generalizing c with
      | nil => intro os2; rfl
      | cons w ws ih =>
        intro os2
        simp [runLoop, outboundCall]
        cases attemptStep m ck c n (os2.head?.getD none) with
        | some rc => simp
        | none => simp [ih]
    simp [handle, h1, h2, hloop]

/-- Witness for C10: two identical requests whose `x-proxy-key` values differ
(an authorized pair under secrets) make byte-identical upstream calls. -/
theorem outbound_headers_noninterference_witness :
    (outboundCall ⟨"GET", "/catalog/v1/x", "/catalog/v1/x", none, some "k1"⟩
        "https://catalog.roblox.com/v1/x").headers
      = [("accept", (none : Option String).getD "*/*"),
         ("user-agent", "roblox-proxy/1.2")] ∧
    outboundCall ⟨"GET", "/catalog/v1/x", "/catalog/v1/x", none, some "k1"⟩
        "https://catalog.roblox.com/v1/x"
      = outboundCall ⟨"GET", "/catalog/v1/x", "/catalog/v1/x", none, some "k2"⟩
        "https://catalog.roblox.com/v1/x" :=
  have h := outbound_headers_noninterference
    ⟨"GET", "/catalog/v1/x", "/catalog/v1/x", none, some "k1"⟩
    ⟨"GET", "/catalog/v1/x", "/catalog/v1/x", none, some "k2"⟩
    "https://catalog.roblox.com/v1/x" rfl rfl
  ⟨h.1, h.2.2.1⟩

end RobloxProxy
